import Mathlib

/-!
Shallow embedding of the EduPace outcome-score propagation engine
(`edupace_app/utils.py`): the score aggregator (`calculate_lo_score`,
`calculate_po_score`), the graph assembler (`get_course_graph_data`) and the
bulk grade importer (`process_excel_grades`), together with theorems checking
the natural-language specification against the code.

Python floats are modelled as rationals (`ℚ`); Django querysets as lists held
in a `Snapshot` record; `Model.objects.get` as `List.find?`; a raised
`DoesNotExist` as the `none` branch of that lookup.
-/

namespace EduPace

/-- A row of the `Course` table: only the primary key and the lock flag are
relevant to the claims (the scoring/graph code never reads any other course
column, and courses are referenced by id). -/
structure Course where
  id : Nat
  is_locked : Bool
  deriving Repr, DecidableEq

/-- A row of the `Assessment` table (fields used by the engine). -/
structure Assessment where
  id : Nat
  course : Nat
  weight_in_course : ℚ
  deriving Repr, DecidableEq

/-- A row of the `LearningOutcome` table (fields used by the engine). -/
structure LearningOutcome where
  id : Nat
  course : Nat
  deriving Repr, DecidableEq

/-- A row of the `AssessmentGrade` table: `(assessment, student)` is unique;
`grade` is the numeric grade. -/
structure AssessmentGrade where
  assessment : Nat
  student : Nat
  grade : ℚ
  deriving Repr, DecidableEq

/-- A row of the `AssessmentToLO` edge table. -/
structure AssessmentToLO where
  assessment : Nat
  learning_outcome : Nat
  weight : ℚ
  deriving Repr, DecidableEq

/-- A row of the `LOToPO` edge table. -/
structure LOToPO where
  learning_outcome : Nat
  program_outcome : Nat
  weight : ℚ
  deriving Repr, DecidableEq

/-- The relational snapshot the engine reads: one list per table. -/
structure Snapshot where
  courses : List Course
  assessments : List Assessment
  learning_outcomes : List LearningOutcome
  assessmentGrades : List AssessmentGrade
  assessmentToLO : List AssessmentToLO
  loToPO : List LOToPO
  deriving Repr, DecidableEq

/-- Model of `AssessmentGrade.objects.get(assessment=a, student=s)` — the
unique-pair lookup; `none` models the raised `DoesNotExist`. -/
def gradeFor (db : Snapshot) (student assessment : Nat) : Option AssessmentGrade :=
  db.assessmentGrades.find? (fun g => g.assessment == assessment && g.student == student)

/-- The `(grade, weight)` pairs accumulated by the loop in `calculate_lo_score`:
one pair per `AssessmentToLO` edge targeting `lo` for which the student has a
recorded grade; edges with no grade are skipped (the `except
AssessmentGrade.DoesNotExist: continue` branch). -/
def loContribs (db : Snapshot) (student lo : Nat) : List (ℚ × ℚ) :=
  (db.assessmentToLO.filter (fun c => c.learning_outcome == lo)).filterMap
    (fun c => (gradeFor db student c.assessment).map (fun g => (g.grade, c.weight)))

/-- Embedding of `calculate_lo_score(student, learning_outcome)` from `utils.py`:
weighted average of the student's assessment grades over the inbound
`AssessmentToLO` edges, `none` when there are no inbound edges or the
contributing weight sums to 0. -/
def calculate_lo_score (db : Snapshot) (student lo : Nat) : Option ℚ :=
  let connections := db.assessmentToLO.filter (fun c => c.learning_outcome == lo)
  if connections.isEmpty then none
  else
    let total_weighted_score := ((loContribs db student lo).map (fun p => p.1 * p.2)).sum
    let total_weight := ((loContribs db student lo).map (fun p => p.2)).sum
    if total_weight = 0 then none
    else some (total_weighted_score / total_weight)

/-- The `(lo_score, weight)` pairs accumulated by the loop in
`calculate_po_score`: one pair per `LOToPO` edge targeting `po` whose source
LO has a non-`None` score for the student. -/
def poContribs (db : Snapshot) (student po : Nat) : List (ℚ × ℚ) :=
  (db.loToPO.filter (fun c => c.program_outcome == po)).filterMap
    (fun c => (calculate_lo_score db student c.learning_outcome).map (fun s => (s, c.weight)))

/-- Embedding of `calculate_po_score(student, program_outcome)` from `utils.py`:
weighted average of the per-LO scores over the inbound `LOToPO` edges,
skipping edges whose LO score is `None`. -/
def calculate_po_score (db : Snapshot) (student po : Nat) : Option ℚ :=
  let connections := db.loToPO.filter (fun c => c.program_outcome == po)
  if connections.isEmpty then none
  else
    let total_weighted_score := ((poContribs db student po).map (fun p => p.1 * p.2)).sum
    let total_weight := ((poContribs db student po).map (fun p => p.2)).sum
    if total_weight = 0 then none
    else some (total_weighted_score / total_weight)

/-- Spec-side restatement of the LO score (written from the spec's words, for
the refinement claim C1): `None` when the LO has no inbound edges, when no
inbound edge has a recorded grade for the student, or when the grade-backed
weights sum to exactly 0; otherwise `Σ(grade_i × weight_i) / Σ(weight_i)` over
exactly the grade-backed edges. -/
def specLOScore (db : Snapshot) (student lo : Nat) : Option ℚ :=
  let inbound := db.assessmentToLO.filter (fun c => c.learning_outcome == lo)
  let backed := loContribs db student lo
  if inbound = [] then none
  else if backed = [] then none
  else if (backed.map (fun p => p.2)).sum = 0 then none
  else some (((backed.map (fun p => p.1 * p.2)).sum) / ((backed.map (fun p => p.2)).sum))

/-- Spec-side restatement of the PO score (for claim C2): weighted average of
`calculate_lo_score` over the `LOToPO` edges targeting the PO, skipping edges
whose LO score is `None`; `None` when there are no inbound edges, every edge's
LO score is `None`, or the contributing weights sum to 0. -/
def specPOScore (db : Snapshot) (student po : Nat) : Option ℚ :=
  let inbound := db.loToPO.filter (fun c => c.program_outcome == po)
  let backed := poContribs db student po
  if inbound = [] then none
  else if backed = [] then none
  else if (backed.map (fun p => p.2)).sum = 0 then none
  else some (((backed.map (fun p => p.1 * p.2)).sum) / ((backed.map (fun p => p.2)).sum))

/-- The single flattened weighted average over all assessments reaching the PO
(spec-side, for the "no re-normalization across levels" part of C2): each
(assessment-grade, A→LO weight × LO→PO weight) pair contributes directly. -/
def flattenedPOScore (db : Snapshot) (student po : Nat) : Option ℚ :=
  let pairs := ((db.loToPO.filter (fun c => c.program_outcome == po)).flatMap
    (fun c2 => (db.assessmentToLO.filter (fun c1 => c1.learning_outcome == c2.learning_outcome)).filterMap
      (fun c1 => (gradeFor db student c1.assessment).map
        (fun g => (g.grade, c1.weight * c2.weight)))))
  let w := (pairs.map (fun p => p.2)).sum
  if w = 0 then none
  else some (((pairs.map (fun p => p.1 * p.2)).sum) / w)

/-! ### Graph assembler (`get_course_graph_data`) -/

/-- A node of the graph payload. `score` models the optional student
annotation stored in the node's `data` (the assessment grade for assessment
nodes, the aggregator's score for LO/PO nodes); `none` when no student is
given or the grade/score is absent. -/
structure GNode where
  id : String
  type : String
  data_id : Nat
  score : Option ℚ
  deriving Repr, DecidableEq

/-- An edge of the graph payload. -/
structure GEdge where
  id : String
  source : String
  target : String
  type : String
  weight : ℚ
  deriving Repr, DecidableEq

/-- The payload returned by `get_course_graph_data`. -/
structure GraphData where
  nodes : List GNode
  edges : List GEdge
  deriving Repr, DecidableEq

/-- The `assessment__course` join used by the edge query
`AssessmentToLO.objects.filter(assessment__course=course)`. -/
def assessmentCourse (db : Snapshot) (aid : Nat) : Option Nat :=
  (db.assessments.find? (fun a => a.id == aid)).map (fun a => a.course)

/-- The `learning_outcome__course` join used by the edge queries
`LOToPO.objects.filter(learning_outcome__course=course)`. -/
def loCourse (db : Snapshot) (lid : Nat) : Option Nat :=
  (db.learning_outcomes.find? (fun l => l.id == lid)).map (fun l => l.course)

/-- The `pos = set()` accumulation in `get_course_graph_data`: distinct
program outcomes of the in-course `LOToPO` edges, first occurrence kept
(a deterministic stand-in for Python set iteration). -/
def distinctPOs (conns : List LOToPO) : List Nat :=
  conns.foldl (fun acc c => if c.program_outcome ∈ acc then acc else acc ++ [c.program_outcome]) []

/-- Embedding of `get_course_graph_data(course, student=None)` from `utils.py`: one node per
assessment and LO of the course and per distinct PO reached from the course's
LOs, one edge per in-course `AssessmentToLO` and `LOToPO` edge; node scores
annotated when a student is given. -/
def get_course_graph_data (db : Snapshot) (course : Nat) (student : Option Nat) : GraphData :=
  let assessments := db.assessments.filter (fun a => a.course == course)
  let assessmentNodes := assessments.map (fun a =>
    { id := "assessment_" ++ toString a.id, type := "assessment", data_id := a.id,
      score := student.bind (fun s => (gradeFor db s a.id).map (fun g => g.grade)) : GNode })
  let learning_outcomes := db.learning_outcomes.filter (fun l => l.course == course)
  let loNodes := learning_outcomes.map (fun l =>
    { id := "lo_" ++ toString l.id, type := "learning_outcome", data_id := l.id,
      score := student.bind (fun s => calculate_lo_score db s l.id) : GNode })
  let po_connections := db.loToPO.filter (fun c => loCourse db c.learning_outcome == some course)
  let poNodes := (distinctPOs po_connections).map (fun p =>
    { id := "po_" ++ toString p, type := "program_outcome", data_id := p,
      score := student.bind (fun s => calculate_po_score db s p) : GNode })
  let assessment_to_lo := db.assessmentToLO.filter (fun e => assessmentCourse db e.assessment == some course)
  let aEdges := assessment_to_lo.map (fun e =>
    { id := "edge_assessment_" ++ toString e.assessment ++ "_lo_" ++ toString e.learning_outcome,
      source := "assessment_" ++ toString e.assessment,
      target := "lo_" ++ toString e.learning_outcome,
      type := "assessment_to_lo", weight := e.weight : GEdge })
  let lo_to_po := db.loToPO.filter (fun e => loCourse db e.learning_outcome == some course)
  let lEdges := lo_to_po.map (fun e =>
    { id := "edge_lo_" ++ toString e.learning_outcome ++ "_po_" ++ toString e.program_outcome,
      source := "lo_" ++ toString e.learning_outcome,
      target := "po_" ++ toString e.program_outcome,
      type := "lo_to_po", weight := e.weight : GEdge })
  { nodes := assessmentNodes ++ loNodes ++ poNodes, edges := aEdges ++ lEdges }

/-! ### Bulk grade importer (`process_excel_grades`) -/

/-- A row of the `Student` table: primary key and the external `student_id`
string (unique). -/
structure StudentRec where
  id : Nat
  student_id : String
  deriving Repr, DecidableEq

/-- A row of the coarse `Grade` table, as written by the importer's
`update_or_create` (keyed on student/course/semester/academic_year). -/
structure GradeRec where
  student : Nat
  course : Nat
  semester : String
  academic_year : String
  grade : String
  percentage : Option ℚ
  created_by : Option Nat
  deriving Repr, DecidableEq

/-- The tabular input: a header row and data rows of string cells, cells
positionally aligned with the headers. -/
structure Table where
  headers : List String
  rows : List (List String)
  deriving Repr, DecidableEq

/-- Whether `needle` is a prefix of the character list. -/
def listHeadMatch : List Char → List Char → Bool
  | [], _ => true
  | _ :: _, [] => false
  | c :: cs, d :: ds => c == d && listHeadMatch cs ds

/-- Whether `needle` occurs contiguously in the character list. -/
def listContains (needle : List Char) : List Char → Bool
  | [] => needle.isEmpty
  | c :: rest => listHeadMatch needle (c :: rest) || listContains needle rest

/-- Python `needle in hay` on strings. -/
def strContains (hay needle : String) : Bool :=
  listContains needle.toList hay.toList

/-- Python `s.strip()`: drop leading and trailing whitespace (list-level, so
that it evaluates by kernel reduction). -/
def pyStrip (s : String) : String :=
  ⟨((s.data.dropWhile Char.isWhitespace).reverse.dropWhile Char.isWhitespace).reverse⟩

/-- Python `s.lower()` (ASCII case folding, as the header names use). -/
def pyLower (s : String) : String :=
  ⟨s.data.map Char.toLower⟩

/-- Python `s.upper()` (ASCII case folding, as the grade tokens use). -/
def pyUpper (s : String) : String :=
  ⟨s.data.map Char.toUpper⟩

/-- The digits of a nonempty all-digit character list, as a number. -/
def digitsToNat (cs : List Char) : Option Nat :=
  if cs.isEmpty then none
  else cs.foldl (fun acc c => acc.bind (fun n => if c.isDigit then some (n * 10 + (c.toNat - 48)) else none)) (some 0)

/-- Split a character list at its first dot, if any. -/
def splitDot : List Char → List Char × Option (List Char)
  | [] => ([], none)
  | c :: rest =>
    if c = '.' then ([], some rest)
    else
      let r := splitDot rest
      (c :: r.1, r.2)

/-- Python `float(s)` on a string cell, for the plain decimal forms the import
sheets carry: optional sign, decimal digits with an optional fractional part;
`none` models the raised `ValueError`. -/
def parseFloat (s : String) : Option ℚ :=
  let t := (pyStrip s).data
  let sign : ℚ := match t with | Chr :: _ => if Chr = '-' then -1 else 1 | [] => 1
  let body := match t with | c :: rest => if c = '-' then rest else t | [] => t
  match splitDot body with
  | (intPart, none) => (digitsToNat intPart).map (fun n => sign * (n : ℚ))
  | (intPart, some fracPart) =>
    match digitsToNat intPart, digitsToNat fracPart with
    | some i, some f => some (sign * ((i : ℚ) + (f : ℚ) / ((10 : ℚ) ^ fracPart.length)))
    | _, _ => none

/-- The column-resolution loop of `process_excel_grades` over the normalized
headers: a column containing both "student" and "id" becomes the student-id
column, else one containing "grade" the grade column, else one containing
"percentage" or "percent" the percentage column; a later match overwrites an
earlier one, exactly as the Python loop reassigns. -/
def resolveColumns (headers : List String) : Option String × Option String × Option String :=
  headers.foldl
    (fun acc col =>
      if strContains col "student" && strContains col "id" then (some col, acc.2.1, acc.2.2)
      else if strContains col "grade" then (acc.1, some col, acc.2.2)
      else if strContains col "percentage" || strContains col "percent" then (acc.1, acc.2.1, some col)
      else acc)
    (none, none, none)

/-- Model of `row[col]`: the cell at the position of `col` among the (normalized)
headers. -/
def getCell (headers row : List String) (col : String) : Option String :=
  (headers.findIdx? (fun h => h == col)).bind (fun i => row.get? i)

/-- The `Grade.GRADE_CHOICES` keys from `models.py`. -/
def valid_grades : List String :=
  ["A+", "A", "A-", "B+", "B", "B-", "C+", "C", "C-", "D", "F"]

/-- Model of `Grade.objects.update_or_create(student=…, course=…, semester=…,
academic_year=…, defaults={…})`: update the record with the matching key if
one exists (second component `false`), else append a new record (`true`). -/
def update_or_create (store : List GradeRec) (student course : Nat)
    (semester academic_year grade : String) (percentage : Option ℚ)
    (created_by : Option Nat) : List GradeRec × Bool :=
  let keyMatch := fun (r : GradeRec) =>
    r.student == student && r.course == course && r.semester == semester && r.academic_year == academic_year
  if store.any keyMatch then
    (store.map (fun r =>
      if keyMatch r then
        { r with grade := grade, percentage := percentage, created_by := created_by }
      else r), false)
  else
    (store ++ [{ student := student, course := course, semester := semester,
                 academic_year := academic_year, grade := grade,
                 percentage := percentage, created_by := created_by }], true)

/-- Outcome of one iteration of the row loop: the row error appended (if any),
the grade store after the row, and whether a new `Grade` was created. -/
structure RowOutcome where
  error : Option String
  store : List GradeRec
  created : Bool
  deriving Repr, DecidableEq

/-- The body of the row loop of `process_excel_grades`: read and trim the
student-id cell, upper-case the grade cell, parse the optional percentage
(failure is the generic per-row exception), look up the student (missing →
"not found" row error), validate the grade token, then upsert; every failure
path leaves the store untouched and reports the row as `index + 2`. -/
def processRow (students : List StudentRec) (headers : List String)
    (student_id_col grade_col : String) (percentage_col : Option String)
    (course : Nat) (semester academic_year : String) (created_by : Option Nat)
    (index : Nat) (row : List String) (store : List GradeRec) : RowOutcome :=
  match getCell headers row student_id_col, getCell headers row grade_col with
  | some sCell, some gCell =>
    let student_id := pyStrip sCell
    let grade_value := pyUpper (pyStrip gCell)
    let pRes : Option (Option ℚ) :=
      match percentage_col with
      | none => some none
      | some pc =>
        match getCell headers row pc with
        | none => some none
        | some cell =>
          if pyStrip cell = "" then some none
          else match parseFloat cell with
            | some q => some (some q)
            | none => none
    match pRes with
    | none =>
      { error := some ("Error processing row " ++ toString (index + 2) ++ ": could not convert string to float"),
        store := store, created := false }
    | some percentage =>
      match students.find? (fun st => st.student_id == student_id) with
      | none =>
        { error := some ("Student with ID " ++ student_id ++ " not found (row " ++ toString (index + 2) ++ ")"),
          store := store, created := false }
      | some st =>
        if grade_value ∈ valid_grades then
          let upsert := update_or_create store st.id course semester academic_year grade_value percentage created_by
          { error := none, store := upsert.1, created := upsert.2 }
        else
          { error := some ("Invalid grade '" ++ grade_value ++ "' for student " ++ student_id ++ " (row " ++ toString (index + 2) ++ ")"),
            store := store, created := false }
  | _, _ =>
    { error := some ("Error processing row " ++ toString (index + 2) ++ ": missing cell"),
      store := store, created := false }

/-- Accumulated outcome of the whole row loop. -/
structure ImportOutcome where
  store : List GradeRec
  grades_created : Nat
  errors : List String
  deriving Repr, DecidableEq

/-- The row loop of `process_excel_grades`: rows processed in order, each
against the store left by the previous one; errors collected in row order,
`grades_created` counting only rows whose upsert created a new record. -/
def processRows (students : List StudentRec) (headers : List String)
    (student_id_col grade_col : String) (percentage_col : Option String)
    (course : Nat) (semester academic_year : String) (created_by : Option Nat) :
    Nat → List (List String) → List GradeRec → ImportOutcome
  | _, [], store => { store := store, grades_created := 0, errors := [] }
  | index, row :: rest, store =>
    let r := processRow students headers student_id_col grade_col percentage_col
      course semester academic_year created_by index row store
    let tail := processRows students headers student_id_col grade_col percentage_col
      course semester academic_year created_by (index + 1) rest r.store
    { store := tail.store,
      grades_created := (if r.created then 1 else 0) + tail.grades_created,
      errors := match r.error with | some e => e :: tail.errors | none => tail.errors }

/-- The value returned by `process_excel_grades`: the code returns a 2-tuple
on the missing-column branch and a 3-tuple everywhere else, so the result type
keeps both shapes. -/
inductive ImportResult where
  | pair (accepted : Bool) (message : String)
  | triple (accepted : Bool) (message : String) (errors : List String)
  deriving Repr, DecidableEq

/-- Embedding of `process_excel_grades(excel_file, course, semester,
academic_year, created_by)` from `utils.py`, with the grade store passed and returned
explicitly: normalize headers, resolve columns (failure returns the 2-tuple
`(False, message)` with the store untouched), run the row loop, and build the
summary message. -/
def process_excel_grades (students : List StudentRec) (table : Table)
    (course : Nat) (semester academic_year : String) (created_by : Option Nat)
    (store : List GradeRec) : ImportResult × List GradeRec :=
  let headers := table.headers.map (fun h => pyLower (pyStrip h))
  let cols := resolveColumns headers
  match cols.1, cols.2.1 with
  | some student_id_col, some grade_col =>
    let out := processRows students headers student_id_col grade_col cols.2.2
      course semester academic_year created_by 0 table.rows store
    let message := "Successfully created/updated " ++ toString out.grades_created ++ " grade(s)."
    let message := if out.errors.isEmpty then message
      else message ++ " " ++ toString out.errors.length ++ " error(s) occurred."
    (.triple true message out.errors, out.store)
  | _, _ => (.pair false "Excel file must contain 'Student ID' and 'Grade' columns", store)

/-! ### Example snapshots and snapshot constructors used in the theorems -/

/-- Adding an `AssessmentToLO` edge to a snapshot. -/
def addA2L (db : Snapshot) (e : AssessmentToLO) : Snapshot :=
  { db with assessmentToLO := e :: db.assessmentToLO }

/-- Adding an `LOToPO` edge to a snapshot. -/
def addL2P (db : Snapshot) (e : LOToPO) : Snapshot :=
  { db with loToPO := e :: db.loToPO }

/-- A small concrete snapshot: course 7 with two assessments feeding LO 10
(grades 80 and 90, weights 1/2 each), one feeding LO 11, both LOs feeding
PO 20. -/
def exDb : Snapshot := {
  courses := [⟨7, false⟩],
  assessments := [⟨1, 7, 1/2⟩, ⟨2, 7, 1/2⟩],
  learning_outcomes := [⟨10, 7⟩, ⟨11, 7⟩],
  assessmentGrades := [⟨1, 1, 80⟩, ⟨2, 1, 90⟩],
  assessmentToLO := [⟨1, 10, 1/2⟩, ⟨2, 10, 1/2⟩, ⟨1, 11, 1⟩],
  loToPO := [⟨10, 20, 1/2⟩, ⟨11, 20, 1/2⟩] }

/-- A snapshot on which the two-level weighted average differs from the
flattened one: LO 10 has one grade-100 assessment, LO 11 has two grade-0
assessments, all weights 1. -/
def exDb2 : Snapshot := {
  courses := [⟨7, false⟩],
  assessments := [⟨1, 7, 1⟩, ⟨2, 7, 1⟩, ⟨3, 7, 1⟩],
  learning_outcomes := [⟨10, 7⟩, ⟨11, 7⟩],
  assessmentGrades := [⟨1, 1, 100⟩, ⟨2, 1, 0⟩, ⟨3, 1, 0⟩],
  assessmentToLO := [⟨1, 10, 1⟩, ⟨2, 11, 1⟩, ⟨3, 11, 1⟩],
  loToPO := [⟨10, 20, 1⟩, ⟨11, 20, 1⟩] }

/-! ### Theorems -/

/-- C1: for every student and learning outcome, `calculate_lo_score` returns
`None` exactly when the LO has no inbound `AssessmentToLO` edges, no inbound
edge has a recorded grade for the student, or the grade-backed weights sum to
exactly 0; otherwise it returns `Σ(grade_i × weight_i) / Σ(weight_i)` over
exactly the grade-backed edges (edges with no grade skipped, never treated as
grade 0) — stated as equality with the spec-side `specLOScore`. -/
theorem calculate_lo_score_matches_spec (db : Snapshot) (student lo : Nat) :
    calculate_lo_score db student lo = specLOScore db student lo := by
  unfold calculate_lo_score specLOScore
  by_cases h : db.assessmentToLO.filter (fun c => c.learning_outcome == lo) = []
  · simp [h]
  · have h' : (db.assessmentToLO.filter (fun c => c.learning_outcome == lo)).isEmpty = false := by
      simpa [List.isEmpty_iff] using h
    by_cases hb : loContribs db student lo = []
    · simp [h, h', hb]
    · simp [h, h', hb]

/-- C2: for every student and program outcome, `calculate_po_score` equals the
spec-side `specPOScore` (weighted average of `calculate_lo_score` over the
inbound `LOToPO` edges, skipping `None` LO scores, `None` when no inbound
edge, no contributing edge, or total weight 0); and on a concrete snapshot the
result (the weighted average of per-LO averages, 50) differs from the single
flattened weighted average over all assessments (100/3) — no re-normalization
across levels. -/
theorem calculate_po_score_matches_spec :
    (∀ (db : Snapshot) (student po : Nat),
      calculate_po_score db student po = specPOScore db student po) ∧
    calculate_po_score exDb2 1 20 = some 50 ∧
    flattenedPOScore exDb2 1 20 = some (100 / 3) ∧
    calculate_po_score exDb2 1 20 ≠ flattenedPOScore exDb2 1 20 := by
  refine ⟨fun db student po => ?_,
    by simp [calculate_po_score, poContribs, calculate_lo_score, loContribs, gradeFor, exDb2,
        List.filter, List.filterMap, List.find?]; norm_num,
    by simp [flattenedPOScore, gradeFor, exDb2, List.filter, List.filterMap, List.find?,
        List.flatMap]; norm_num,
    by simp [calculate_po_score, poContribs, calculate_lo_score, loContribs, flattenedPOScore,
        gradeFor, exDb2, List.filter, List.filterMap, List.find?, List.flatMap]; norm_num⟩
  unfold calculate_po_score specPOScore
  by_cases h : db.loToPO.filter (fun c => c.program_outcome == po) = []
  · simp [h]
  · have h' : (db.loToPO.filter (fun c => c.program_outcome == po)).isEmpty = false := by
      simpa [List.isEmpty_iff] using h
    by_cases hb : poContribs db student po = []
    · simp [h, h', hb]
    · simp [h, h', hb]

-- Bounds on weighted sums of (value, weight) pairs, used for the range claim.
theorem pair_weight_sum_nonneg (l : List (ℚ × ℚ)) (h : ∀ p ∈ l, 0 ≤ p.2) :
    0 ≤ (l.map (fun p => p.2)).sum := by
  apply List.sum_nonneg
  intro x hx
  rcases List.mem_map.1 hx with ⟨p, hp, rfl⟩
  exact h p hp

theorem weighted_sum_nonneg (l : List (ℚ × ℚ)) (h : ∀ p ∈ l, 0 ≤ p.1 ∧ 0 ≤ p.2) :
    0 ≤ (l.map (fun p => p.1 * p.2)).sum := by
  apply List.sum_nonneg
  intro x hx
  rcases List.mem_map.1 hx with ⟨p, hp, rfl⟩
  exact mul_nonneg (h p hp).1 (h p hp).2

theorem weighted_sum_le_hundred (l : List (ℚ × ℚ)) (h : ∀ p ∈ l, p.1 ≤ 100 ∧ 0 ≤ p.2) :
    (l.map (fun p => p.1 * p.2)).sum ≤ 100 * (l.map (fun p => p.2)).sum := by
  induction l with
  | nil => simp
  | cons p t ih =>
    simp only [List.map_cons, List.sum_cons, mul_add]
    have h1 := h p (List.mem_cons_self p t)
    exact add_le_add (mul_le_mul_of_nonneg_right h1.1 h1.2)
      (ih fun q hq => h q (List.mem_cons_of_mem _ hq))

theorem weighted_avg_bounds (l : List (ℚ × ℚ))
    (hmem : ∀ p ∈ l, 0 ≤ p.1 ∧ p.1 ≤ 100 ∧ 0 ≤ p.2)
    (hW : (l.map (fun p => p.2)).sum ≠ 0) :
    0 ≤ (l.map (fun p => p.1 * p.2)).sum / (l.map (fun p => p.2)).sum ∧
      (l.map (fun p => p.1 * p.2)).sum / (l.map (fun p => p.2)).sum ≤ 100 := by
  have hWnn : 0 ≤ (l.map (fun p => p.2)).sum :=
    pair_weight_sum_nonneg l (fun p hp => (hmem p hp).2.2)
  have hWpos : 0 < (l.map (fun p => p.2)).sum := lt_of_le_of_ne hWnn (Ne.symm hW)
  constructor
  · exact div_nonneg (weighted_sum_nonneg l (fun p hp => ⟨(hmem p hp).1, (hmem p hp).2.2⟩)) hWnn
  · rw [div_le_iff₀ hWpos]
    exact weighted_sum_le_hundred l (fun p hp => ⟨(hmem p hp).2.1, (hmem p hp).2.2⟩)

-- Every contribution pair comes from a stored grade and a stored edge.
theorem loContribs_mem (db : Snapshot) (s lo : Nat) (p : ℚ × ℚ)
    (hp : p ∈ loContribs db s lo) :
    (∃ g ∈ db.assessmentGrades, p.1 = g.grade) ∧ ∃ c ∈ db.assessmentToLO, p.2 = c.weight := by
  unfold loContribs at hp
  rcases List.mem_filterMap.1 hp with ⟨c, hc, hmap⟩
  rcases Option.map_eq_some'.1 hmap with ⟨g, hg, hpg⟩
  refine ⟨⟨g, List.mem_of_find?_eq_some hg, ?_⟩, ⟨c, List.mem_of_mem_filter hc, ?_⟩⟩
  · rw [← hpg]
  · rw [← hpg]

theorem poContribs_mem (db : Snapshot) (s po : Nat) (p : ℚ × ℚ)
    (hp : p ∈ poContribs db s po) :
    (∃ l, calculate_lo_score db s l = some p.1) ∧ ∃ c ∈ db.loToPO, p.2 = c.weight := by
  unfold poContribs at hp
  rcases List.mem_filterMap.1 hp with ⟨c, hc, hmap⟩
  rcases Option.map_eq_some'.1 hmap with ⟨v, hv, hpv⟩
  refine ⟨⟨c.learning_outcome, ?_⟩, ⟨c, List.mem_of_mem_filter hc, ?_⟩⟩
  · rw [hv, ← hpv]
  · rw [← hpv]

/-- C7: on any snapshot whose assessment grades all lie in [0, 100] and whose
edge weights are all non-negative, every non-`None` result of
`calculate_lo_score` and `calculate_po_score` lies in [0, 100] — the weighted
average stays in range by construction, with no clamping in the code. -/
theorem score_range_in_bounds (db : Snapshot)
    (Hg : ∀ g ∈ db.assessmentGrades, 0 ≤ g.grade ∧ g.grade ≤ 100)
    (Hw1 : ∀ e ∈ db.assessmentToLO, 0 ≤ e.weight)
    (Hw2 : ∀ e ∈ db.loToPO, 0 ≤ e.weight) :
    (∀ s lo q, calculate_lo_score db s lo = some q → 0 ≤ q ∧ q ≤ 100) ∧
    (∀ s po q, calculate_po_score db s po = some q → 0 ≤ q ∧ q ≤ 100) := by
  have lo_half : ∀ s lo q, calculate_lo_score db s lo = some q → 0 ≤ q ∧ q ≤ 100 := by
    intro s lo q hq
    unfold calculate_lo_score at hq
    dsimp only at hq
    split at hq
    · cases hq
    · split at hq
      · cases hq
      · rename_i hW
        rcases Option.some.inj hq with rfl
        apply weighted_avg_bounds _ _ hW
        intro p hp
        rcases loContribs_mem db s lo p hp with ⟨⟨g, hg, hpg⟩, ⟨c, hc, hpc⟩⟩
        exact ⟨hpg ▸ (Hg g hg).1, hpg ▸ (Hg g hg).2, hpc ▸ Hw1 c hc⟩
  refine ⟨lo_half, ?_⟩
  intro s po q hq
  unfold calculate_po_score at hq
  dsimp only at hq
  split at hq
  · cases hq
  · split at hq
    · cases hq
    · rename_i hW
      rcases Option.some.inj hq with rfl
      apply weighted_avg_bounds _ _ hW
      intro p hp
      rcases poContribs_mem db s po p hp with ⟨⟨l, hl⟩, ⟨c, hc, hpc⟩⟩
      rcases lo_half s l p.1 hl with ⟨h1, h2⟩
      exact ⟨h1, h2, hpc ▸ Hw2 c hc⟩

/-- Witness for C7: on the concrete snapshot `exDb` (grades 80 and 90,
non-negative weights) the LO-10 score 85 is within [0, 100], obtained through
`score_range_in_bounds`. -/
theorem score_range_in_bounds_witness : 0 ≤ (85 : ℚ) ∧ (85 : ℚ) ≤ 100 :=
  (score_range_in_bounds exDb (by norm_num [exDb, List.forall_mem_cons])
      (by norm_num [exDb, List.forall_mem_cons]) (by norm_num [exDb, List.forall_mem_cons])).1 1 10 85
    (by simp [calculate_lo_score, loContribs, gradeFor, exDb, List.filter, List.filterMap,
        List.find?]; norm_num)

/-- C8: score computation and graph assembly are independent of the course
lock — replacing the course table by one with the same course ids (so the two
snapshots can differ only in `is_locked` values) leaves `calculate_lo_score`,
`calculate_po_score` and `get_course_graph_data` unchanged on every input. -/
theorem scores_ignore_course_lock (db : Snapshot) (cs : List Course)
    (_h : cs.map Course.id = db.courses.map Course.id) :
    (∀ s lo, calculate_lo_score { db with courses := cs } s lo = calculate_lo_score db s lo) ∧
    (∀ s po, calculate_po_score { db with courses := cs } s po = calculate_po_score db s po) ∧
    (∀ course student, get_course_graph_data { db with courses := cs } course student
        = get_course_graph_data db course student) :=
  ⟨fun _ _ => rfl, fun _ _ => rfl, fun _ _ => rfl⟩

/-- Witness for C8: locking course 7 in `exDb` leaves the LO-10 score
unchanged, obtained through `scores_ignore_course_lock`. -/
theorem scores_ignore_course_lock_witness :
    calculate_lo_score { exDb with courses := [⟨7, true⟩] } 1 10 = calculate_lo_score exDb 1 10 :=
  (scores_ignore_course_lock exDb [⟨7, true⟩] (by decide)).1 1 10

-- `gradeFor` does not read the edge tables.
theorem gradeFor_addA2L (db : Snapshot) (e : AssessmentToLO) :
    gradeFor (addA2L db e) = gradeFor db := rfl

-- A weight-0 AssessmentToLO edge never changes an LO score.
theorem lo_ignores_zero_a2l (db : Snapshot) (s lo : Nat) (e : AssessmentToLO) (h : e.weight = 0) :
    calculate_lo_score (addA2L db e) s lo = calculate_lo_score db s lo := by
  by_cases he : (e.learning_outcome == lo) = true
  · have hconn : (addA2L db e).assessmentToLO.filter (fun c => c.learning_outcome == lo)
        = e :: db.assessmentToLO.filter (fun c => c.learning_outcome == lo) := by
      simp [addA2L, List.filter_cons, he]
    have hcontrib : loContribs (addA2L db e) s lo =
        match gradeFor db s e.assessment with
        | some g => (g.grade, e.weight) :: loContribs db s lo
        | none => loContribs db s lo := by
      unfold loContribs
      rw [gradeFor_addA2L, hconn, List.filterMap_cons]
      rcases hg : gradeFor db s e.assessment with _ | g <;> simp [hg]
    have hS : ((loContribs (addA2L db e) s lo).map (fun p => p.1 * p.2)).sum
        = ((loContribs db s lo).map (fun p => p.1 * p.2)).sum := by
      rw [hcontrib]
      rcases hg : gradeFor db s e.assessment with _ | g <;> simp [h]
    have hW : ((loContribs (addA2L db e) s lo).map (fun p => p.2)).sum
        = ((loContribs db s lo).map (fun p => p.2)).sum := by
      rw [hcontrib]
      rcases hg : gradeFor db s e.assessment with _ | g <;> simp [h]
    unfold calculate_lo_score
    rw [hconn, hS, hW]
    by_cases hc : db.assessmentToLO.filter (fun c => c.learning_outcome == lo) = []
    · have hnil : loContribs db s lo = [] := by unfold loContribs; rw [hc]; rfl
      simp [hc, hnil]
    · have h' : (db.assessmentToLO.filter (fun c => c.learning_outcome == lo)).isEmpty = false := by
        simpa [List.isEmpty_iff] using hc
      simp [h']
  · have hconn : (addA2L db e).assessmentToLO.filter (fun c => c.learning_outcome == lo)
        = db.assessmentToLO.filter (fun c => c.learning_outcome == lo) := by
      simp [addA2L, List.filter_cons, he]
    have hcontrib : loContribs (addA2L db e) s lo = loContribs db s lo := by
      unfold loContribs
      rw [gradeFor_addA2L, hconn]
    unfold calculate_lo_score
    rw [hconn, hcontrib]

-- LO scores do not read the LOToPO table at all.
theorem lo_score_addL2P (db : Snapshot) (s lo : Nat) (e : LOToPO) :
    calculate_lo_score (addL2P db e) s lo = calculate_lo_score db s lo := rfl

-- A weight-0 AssessmentToLO edge never changes a PO score.
theorem po_ignores_zero_a2l (db : Snapshot) (s po : Nat) (e : AssessmentToLO) (h : e.weight = 0) :
    calculate_po_score (addA2L db e) s po = calculate_po_score db s po := by
  have hcontrib : poContribs (addA2L db e) s po = poContribs db s po := by
    unfold poContribs
    rw [show (addA2L db e).loToPO = db.loToPO from rfl]
    exact List.filterMap_congr (fun c _ => by rw [lo_ignores_zero_a2l db s c.learning_outcome e h])
  unfold calculate_po_score
  rw [show (addA2L db e).loToPO = db.loToPO from rfl, hcontrib]

-- A weight-0 LOToPO edge never changes a PO score.
theorem po_ignores_zero_l2p (db : Snapshot) (s po : Nat) (e : LOToPO) (h : e.weight = 0) :
    calculate_po_score (addL2P db e) s po = calculate_po_score db s po := by
  by_cases he : (e.program_outcome == po) = true
  · have hconn : (addL2P db e).loToPO.filter (fun c => c.program_outcome == po)
        = e :: db.loToPO.filter (fun c => c.program_outcome == po) := by
      simp [addL2P, List.filter_cons, he]
    have hcontrib : poContribs (addL2P db e) s po =
        match calculate_lo_score db s e.learning_outcome with
        | some v => (v, e.weight) :: poContribs db s po
        | none => poContribs db s po := by
      unfold poContribs
      rw [hconn, List.filterMap_cons]
      have hlo : ∀ l, calculate_lo_score (addL2P db e) s l = calculate_lo_score db s l :=
        fun l => rfl
      rcases hg : calculate_lo_score db s e.learning_outcome with _ | v <;>
        simp [hlo, hg]
    have hS : ((poContribs (addL2P db e) s po).map (fun p => p.1 * p.2)).sum
        = ((poContribs db s po).map (fun p => p.1 * p.2)).sum := by
      rw [hcontrib]
      rcases hg : calculate_lo_score db s e.learning_outcome with _ | v <;> simp [h]
    have hW : ((poContribs (addL2P db e) s po).map (fun p => p.2)).sum
        = ((poContribs db s po).map (fun p => p.2)).sum := by
      rw [hcontrib]
      rcases hg : calculate_lo_score db s e.learning_outcome with _ | v <;> simp [h]
    unfold calculate_po_score
    rw [hconn, hS, hW]
    by_cases hc : db.loToPO.filter (fun c => c.program_outcome == po) = []
    · have hnil : poContribs db s po = [] := by unfold poContribs; rw [hc]; rfl
      simp [hc, hnil]
    · have h' : (db.loToPO.filter (fun c => c.program_outcome == po)).isEmpty = false := by
        simpa [List.isEmpty_iff] using hc
      simp [h']
  · have hconn : (addL2P db e).loToPO.filter (fun c => c.program_outcome == po)
        = db.loToPO.filter (fun c => c.program_outcome == po) := by
      simp [addL2P, List.filter_cons, he]
    have hcontrib : poContribs (addL2P db e) s po = poContribs db s po := by
      unfold poContribs
      rw [hconn]
      exact List.filterMap_congr (fun c _ => rfl)
    unfold calculate_po_score
    rw [hconn, hcontrib]

/-- C10: adding an inbound edge of weight 0 — an `AssessmentToLO` edge or an
`LOToPO` edge — never changes any result of `calculate_lo_score` or
`calculate_po_score` (so removing one never does either): a `None` stays
`None` and a numeric result keeps its value. -/
theorem zero_weight_edge_identity (db : Snapshot) (s : Nat)
    (e1 : AssessmentToLO) (e2 : LOToPO) (h1 : e1.weight = 0) (h2 : e2.weight = 0) :
    (∀ lo, calculate_lo_score (addA2L db e1) s lo = calculate_lo_score db s lo) ∧
    (∀ po, calculate_po_score (addA2L db e1) s po = calculate_po_score db s po) ∧
    (∀ lo, calculate_lo_score (addL2P db e2) s lo = calculate_lo_score db s lo) ∧
    (∀ po, calculate_po_score (addL2P db e2) s po = calculate_po_score db s po) :=
  ⟨fun lo => lo_ignores_zero_a2l db s lo e1 h1,
   fun po => po_ignores_zero_a2l db s po e1 h1,
   fun lo => lo_score_addL2P db s lo e2,
   fun po => po_ignores_zero_l2p db s po e2 h2⟩

/-- Witness for C10: adding a weight-0 edge from assessment 5 to LO 10 in
`exDb` leaves the LO-10 score unchanged, obtained through
`zero_weight_edge_identity`. -/
theorem zero_weight_edge_identity_witness :
    calculate_lo_score (addA2L exDb ⟨5, 10, 0⟩) 1 10 = calculate_lo_score exDb 1 10 :=
  (zero_weight_edge_identity exDb 1 ⟨5, 10, 0⟩ ⟨10, 99, 0⟩ rfl rfl).1 10

-- The Python set accumulation keeps each program outcome exactly once.
theorem distinctPOs_aux (conns : List LOToPO) (acc : List Nat) (hacc : acc.Nodup) :
    (conns.foldl (fun a c => if c.program_outcome ∈ a then a else a ++ [c.program_outcome]) acc).Nodup ∧
    ∀ x, x ∈ conns.foldl (fun a c => if c.program_outcome ∈ a then a else a ++ [c.program_outcome]) acc
      ↔ x ∈ acc ∨ x ∈ conns.map (fun c => c.program_outcome) := by
  induction conns generalizing acc with
  | nil => simp [hacc]
  | cons c t ih =>
    simp only [List.foldl_cons, List.map_cons]
    by_cases hc : c.program_outcome ∈ acc
    · rw [if_pos hc]
      rcases ih acc hacc with ⟨h1, h2⟩
      refine ⟨h1, fun x => ?_⟩
      rw [h2]
      constructor
      · rintro (hx | hx)
        · exact Or.inl hx
        · exact Or.inr (List.mem_cons_of_mem _ hx)
      · rintro (hx | hx)
        · exact Or.inl hx
        · rcases List.mem_cons.1 hx with rfl | hx
          · exact Or.inl hc
          · exact Or.inr hx
    · rw [if_neg hc]
      have hacc2 : (acc ++ [c.program_outcome]).Nodup := by
        simp [List.nodup_append, hacc, hc]
      rcases ih _ hacc2 with ⟨h1, h2⟩
      refine ⟨h1, fun x => ?_⟩
      rw [h2]
      simp only [List.mem_append, List.mem_singleton, List.mem_cons]
      tauto

theorem distinctPOs_spec (conns : List LOToPO) :
    (distinctPOs conns).Nodup ∧
    ∀ x, x ∈ distinctPOs conns ↔ x ∈ conns.map (fun c => c.program_outcome) := by
  rcases distinctPOs_aux conns [] List.nodup_nil with ⟨h1, h2⟩
  exact ⟨h1, fun x => by rw [distinctPOs, h2]; simp⟩

theorem distinctPOs_length (conns : List LOToPO) :
    (distinctPOs conns).length = ((conns.map (fun c => c.program_outcome)).dedup).length := by
  rcases distinctPOs_spec conns with ⟨h1, h2⟩
  have hfs : (distinctPOs conns).toFinset = (conns.map (fun c => c.program_outcome)).toFinset := by
    ext x
    simp only [List.mem_toFinset]
    exact h2 x
  calc (distinctPOs conns).length
      = (distinctPOs conns).toFinset.card := (List.toFinset_card_of_nodup h1).symm
    _ = (conns.map (fun c => c.program_outcome)).toFinset.card := by rw [hfs]
    _ = ((conns.map (fun c => c.program_outcome)).dedup).length := List.card_toFinset _

/-- C3: the graph payload has exactly N + M + K nodes — N assessments of the
course, M learning outcomes of the course, K distinct program outcomes reached
by the course's `LOToPO` edges (each PO exactly once even when reached via
several LOs) — and one edge per `AssessmentToLO` edge whose assessment belongs
to the course plus one per `LOToPO` edge whose LO belongs to the course. -/
theorem graph_node_edge_counts (db : Snapshot) (course : Nat) (student : Option Nat) :
    (get_course_graph_data db course student).nodes.length
      = (db.assessments.filter (fun a => a.course == course)).length
        + (db.learning_outcomes.filter (fun l => l.course == course)).length
        + ((db.loToPO.filter (fun c => loCourse db c.learning_outcome == some course)).map
            (fun c => c.program_outcome)).dedup.length ∧
    (get_course_graph_data db course student).edges.length
      = (db.assessmentToLO.filter (fun e => assessmentCourse db e.assessment == some course)).length
        + (db.loToPO.filter (fun e => loCourse db e.learning_outcome == some course)).length ∧
    (((get_course_graph_data db course student).nodes.filter
        (fun n => n.type == "program_outcome")).map (fun n => n.data_id)).Nodup ∧
    ∀ p, p ∈ ((get_course_graph_data db course student).nodes.filter
        (fun n => n.type == "program_outcome")).map (fun n => n.data_id)
      ↔ p ∈ (db.loToPO.filter (fun c => loCourse db c.learning_outcome == some course)).map
          (fun c => c.program_outcome) := by
  rcases distinctPOs_spec (db.loToPO.filter (fun c => loCourse db c.learning_outcome == some course))
    with ⟨hnd, hmem⟩
  refine ⟨?_, ?_, ?_, ?_⟩
  · simp [get_course_graph_data, List.length_append, List.length_map, distinctPOs_length]
    omega
  · simp [get_course_graph_data, List.length_append, List.length_map]
  · simp only [get_course_graph_data, List.filter_append, List.filter_map]
    simp [Function.comp_def, List.map_map, hnd]
  · intro p
    simp only [get_course_graph_data, List.filter_append, List.filter_map]
    simp [Function.comp_def, List.map_map, hmem]

-- The payload lists written out (definitional unfoldings of the assembler).
theorem graph_nodes_eq (db : Snapshot) (course : Nat) (student : Option Nat) :
    (get_course_graph_data db course student).nodes
      = (db.assessments.filter (fun a => a.course == course)).map (fun a =>
          { id := "assessment_" ++ toString a.id, type := "assessment", data_id := a.id,
            score := student.bind (fun s => (gradeFor db s a.id).map (fun g => g.grade)) : GNode })
        ++ (db.learning_outcomes.filter (fun l => l.course == course)).map (fun l =>
          { id := "lo_" ++ toString l.id, type := "learning_outcome", data_id := l.id,
            score := student.bind (fun s => calculate_lo_score db s l.id) : GNode })
        ++ (distinctPOs (db.loToPO.filter (fun c => loCourse db c.learning_outcome == some course))).map (fun p =>
          { id := "po_" ++ toString p, type := "program_outcome", data_id := p,
            score := student.bind (fun s => calculate_po_score db s p) : GNode }) := rfl

theorem graph_edges_eq (db : Snapshot) (course : Nat) (student : Option Nat) :
    (get_course_graph_data db course student).edges
      = (db.assessmentToLO.filter (fun e => assessmentCourse db e.assessment == some course)).map (fun e =>
          { id := "edge_assessment_" ++ toString e.assessment ++ "_lo_" ++ toString e.learning_outcome,
            source := "assessment_" ++ toString e.assessment,
            target := "lo_" ++ toString e.learning_outcome,
            type := "assessment_to_lo", weight := e.weight : GEdge })
        ++ (db.loToPO.filter (fun e => loCourse db e.learning_outcome == some course)).map (fun e =>
          { id := "edge_lo_" ++ toString e.learning_outcome ++ "_po_" ++ toString e.program_outcome,
            source := "lo_" ++ toString e.learning_outcome,
            target := "po_" ++ toString e.program_outcome,
            type := "lo_to_po", weight := e.weight : GEdge }) := rfl

-- Each kind of endpoint id occurs among the emitted node ids.
theorem assessment_node_id_mem (db : Snapshot) (course : Nat) (student : Option Nat) (aid : Nat)
    (h : assessmentCourse db aid = some course) :
    ("assessment_" ++ toString aid) ∈ (get_course_graph_data db course student).nodes.map GNode.id := by
  rcases Option.map_eq_some'.1 h with ⟨a, hfind, hcourse⟩
  have hmem : a ∈ db.assessments := List.mem_of_find?_eq_some hfind
  have hid : a.id = aid := by simpa using List.find?_some hfind
  have hfil : a ∈ db.assessments.filter (fun x => x.course == course) :=
    List.mem_filter.2 ⟨hmem, by simp [hcourse]⟩
  rw [graph_nodes_eq]
  simp only [List.map_append, List.mem_append, List.map_map, List.mem_map, Function.comp_def]
  exact Or.inl (Or.inl ⟨a, hfil, by rw [hid]⟩)

theorem lo_node_id_mem (db : Snapshot) (course : Nat) (student : Option Nat) (lid : Nat)
    (h : loCourse db lid = some course) :
    ("lo_" ++ toString lid) ∈ (get_course_graph_data db course student).nodes.map GNode.id := by
  rcases Option.map_eq_some'.1 h with ⟨l, hfind, hcourse⟩
  have hmem : l ∈ db.learning_outcomes := List.mem_of_find?_eq_some hfind
  have hid : l.id = lid := by simpa using List.find?_some hfind
  have hfil : l ∈ db.learning_outcomes.filter (fun x => x.course == course) :=
    List.mem_filter.2 ⟨hmem, by simp [hcourse]⟩
  rw [graph_nodes_eq]
  simp only [List.map_append, List.mem_append, List.map_map, List.mem_map, Function.comp_def]
  exact Or.inl (Or.inr ⟨l, hfil, by rw [hid]⟩)

theorem po_node_id_mem (db : Snapshot) (course : Nat) (student : Option Nat) (ed : LOToPO)
    (h : ed ∈ db.loToPO.filter (fun c => loCourse db c.learning_outcome == some course)) :
    ("po_" ++ toString ed.program_outcome) ∈ (get_course_graph_data db course student).nodes.map GNode.id := by
  have hpo : ed.program_outcome ∈ distinctPOs
      (db.loToPO.filter (fun c => loCourse db c.learning_outcome == some course)) :=
    (distinctPOs_spec _).2 _ |>.2 (List.mem_map_of_mem _ h)
  rw [graph_nodes_eq]
  simp only [List.map_append, List.mem_append, List.map_map, List.mem_map, Function.comp_def]
  exact Or.inr ⟨ed.program_outcome, hpo, rfl⟩

/-- C9: edge-endpoint closure of the graph payload — every emitted edge's
source id occurs among the emitted node ids unconditionally; every LO→PO
edge's target id does too (the PO node set is collected from the same edge
query); and every assessment→LO edge's target id does provided each
`AssessmentToLO` edge of the course links an assessment and an LO of the same
course. -/
theorem graph_edge_endpoint_closure (db : Snapshot) (course : Nat) (student : Option Nat) :
    (∀ e ∈ (get_course_graph_data db course student).edges,
      e.source ∈ (get_course_graph_data db course student).nodes.map GNode.id) ∧
    (∀ e ∈ (get_course_graph_data db course student).edges, e.type = "lo_to_po" →
      e.target ∈ (get_course_graph_data db course student).nodes.map GNode.id) ∧
    ((∀ ed ∈ db.assessmentToLO, assessmentCourse db ed.assessment = some course →
        loCourse db ed.learning_outcome = some course) →
      ∀ e ∈ (get_course_graph_data db course student).edges,
        e.target ∈ (get_course_graph_data db course student).nodes.map GNode.id) := by
  refine ⟨?_, ?_, ?_⟩
  · intro e he
    rw [graph_edges_eq] at he
    rcases List.mem_append.1 he with he | he
    · rcases List.mem_map.1 he with ⟨ed, hed, rfl⟩
      have hc : assessmentCourse db ed.assessment = some course := by
        simpa using (List.mem_filter.1 hed).2
      exact assessment_node_id_mem db course student ed.assessment hc
    · rcases List.mem_map.1 he with ⟨ed, hed, rfl⟩
      have hc : loCourse db ed.learning_outcome = some course := by
        simpa using (List.mem_filter.1 hed).2
      exact lo_node_id_mem db course student ed.learning_outcome hc
  · intro e he htype
    rw [graph_edges_eq] at he
    rcases List.mem_append.1 he with he | he
    · rcases List.mem_map.1 he with ⟨ed, hed, rfl⟩
      simp at htype
    · rcases List.mem_map.1 he with ⟨ed, hed, rfl⟩
      exact po_node_id_mem db course student ed hed
  · intro H e he
    rw [graph_edges_eq] at he
    rcases List.mem_append.1 he with he | he
    · rcases List.mem_map.1 he with ⟨ed, hed, rfl⟩
      have hc : assessmentCourse db ed.assessment = some course := by
        simpa using (List.mem_filter.1 hed).2
      have hlo : loCourse db ed.learning_outcome = some course :=
        H ed (List.mem_of_mem_filter hed) hc
      exact lo_node_id_mem db course student ed.learning_outcome hlo
    · rcases List.mem_map.1 he with ⟨ed, hed, rfl⟩
      exact po_node_id_mem db course student ed hed

/-- Witness for C9: on `exDb` (where every edge is same-course), the target of
the assessment-1 → LO-11 edge occurs among the node ids, obtained through
`graph_edge_endpoint_closure`. -/
theorem graph_edge_endpoint_closure_witness :
    "lo_11" ∈ (get_course_graph_data exDb 7 none).nodes.map GNode.id :=
  (graph_edge_endpoint_closure exDb 7 none).2.2 (by decide)
    { id := "edge_assessment_1_lo_11", source := "assessment_1", target := "lo_11",
      type := "assessment_to_lo", weight := 1 }
    (by rw [graph_edges_eq]
        simp [exDb, assessmentCourse, loCourse, List.filter, List.find?]
        exact ⟨by decide, by decide, by decide⟩)

-- Substring machinery relating the executable check to `List.IsInfix`.
theorem listHeadMatch_iff : ∀ (n h : List Char), listHeadMatch n h = true ↔ n <+: h
  | [], h => by
    rw [show listHeadMatch [] h = true from rfl]
    simp [ List.nil_prefix]
  | c :: cs, [] => by
    rw [show listHeadMatch (c :: cs) [] = false from rfl]
    simp [ List.prefix_nil]
  | c :: cs, d :: ds => by
    rw [show listHeadMatch (c :: cs) (d :: ds) = (c == d && listHeadMatch cs ds) from rfl]
    rw [Bool.and_eq_true, beq_iff_eq, listHeadMatch_iff cs ds, List.cons_prefix_cons]

theorem listContains_iff (n : List Char) : ∀ (h : List Char), listContains n h = true ↔ n <:+: h
  | [] => by
    rw [show listContains n [] = n.isEmpty from rfl]
    cases n <;> simp [ List.infix_nil, List.isEmpty]
  | c :: t => by
    rw [show listContains n (c :: t) = (listHeadMatch n (c :: t) || listContains n t) from rfl]
    rw [Bool.or_eq_true, listHeadMatch_iff n (c :: t), listContains_iff n t, List.infix_cons_iff]

theorem strContains_sandwich (pre mid post : String) :
    strContains (pre ++ mid ++ post) mid = true := by
  apply (listContains_iff _ _).2
  refine ⟨pre.toList, post.toList, ?_⟩
  show pre.data ++ mid.data ++ post.data = (pre ++ mid ++ post).data
  simp [String.data_append]

-- Every importer row-error message embeds "row " followed by its row number.
theorem strContains_row_msg1 (n x : String) :
    strContains ("Error processing row " ++ n ++ x) ("row " ++ n) = true := by
  have h : ("Error processing row " : String) = "Error processing " ++ "row " := rfl
  rw [h, String.append_assoc "Error processing " "row " n]
  exact strContains_sandwich _ _ _

theorem strContains_row_msg2 (sid n : String) :
    strContains ("Student with ID " ++ sid ++ " not found (row " ++ n ++ ")") ("row " ++ n) = true := by
  have h : (" not found (row " : String) = " not found (" ++ "row " := rfl
  rw [h]
  rw [← String.append_assoc ("Student with ID " ++ sid) " not found (" "row "]
  rw [String.append_assoc ("Student with ID " ++ sid ++ " not found (") "row " n]
  exact strContains_sandwich _ _ _

theorem strContains_row_msg3 (g sid n : String) :
    strContains ("Invalid grade '" ++ g ++ "' for student " ++ sid ++ " (row " ++ n ++ ")")
      ("row " ++ n) = true := by
  have h : (" (row " : String) = " (" ++ "row " := rfl
  rw [h]
  rw [← String.append_assoc ("Invalid grade '" ++ g ++ "' for student " ++ sid) " (" "row "]
  rw [String.append_assoc ("Invalid grade '" ++ g ++ "' for student " ++ sid ++ " (") "row " n]
  exact strContains_sandwich _ _ _

-- A failing row leaves the store untouched, creates nothing, and its single
-- error message reports the row as its 0-based index plus 2.
theorem processRow_error_isolated (students : List StudentRec) (headers : List String)
    (sc gc : String) (pc : Option String) (course : Nat) (semester academic_year : String)
    (created_by : Option Nat) (index : Nat) (row : List String) (store : List GradeRec)
    (err : String) :
    (processRow students headers sc gc pc course semester academic_year created_by
        index row store).error = some err →
    (processRow students headers sc gc pc course semester academic_year created_by
        index row store).store = store ∧
    (processRow students headers sc gc pc course semester academic_year created_by
        index row store).created = false ∧
    strContains err ("row " ++ toString (index + 2)) = true := by
  unfold processRow
  split
  · dsimp only
    split
    · intro herr
      rcases Option.some.inj herr with rfl
      exact ⟨rfl, rfl, strContains_row_msg1 _ _⟩
    · split
      · intro herr
        rcases Option.some.inj herr with rfl
        exact ⟨rfl, rfl, strContains_row_msg2 _ _⟩
      · split
        · intro herr
          cases herr
        · intro herr
          rcases Option.some.inj herr with rfl
          exact ⟨rfl, rfl, strContains_row_msg3 _ _ _⟩
  · intro herr
    rcases Option.some.inj herr with rfl
    exact ⟨rfl, rfl, strContains_row_msg1 _ _⟩

/-- C5: whenever column resolution succeeds the import returns the 3-tuple
with `accepted = true` no matter how many rows fail; a failing row contributes
one error message reporting the row as its 0-based data index plus 2 and
leaves the grade store untouched; and on the concrete two-row table with one
unknown student id the result is `accepted = true`, exactly one row error
naming the missing id (row 2), and exactly one Grade record created. -/
theorem import_row_isolation :
    (∀ (students : List StudentRec) (table : Table) (course : Nat)
        (semester academic_year : String) (created_by : Option Nat) (store : List GradeRec)
        (sc gc : String),
      (resolveColumns (table.headers.map (fun h => pyLower (pyStrip h)))).1 = some sc →
      (resolveColumns (table.headers.map (fun h => pyLower (pyStrip h)))).2.1 = some gc →
      ∃ msg errs store2, process_excel_grades students table course semester academic_year
          created_by store = (.triple true msg errs, store2)) ∧
    (∀ (students : List StudentRec) (headers : List String) (sc gc : String)
        (pc : Option String) (course : Nat) (semester academic_year : String)
        (created_by : Option Nat) (index : Nat) (row : List String) (store : List GradeRec)
        (err : String),
      (processRow students headers sc gc pc course semester academic_year created_by
          index row store).error = some err →
      (processRow students headers sc gc pc course semester academic_year created_by
          index row store).store = store ∧
      strContains err ("row " ++ toString (index + 2)) = true) ∧
    process_excel_grades [⟨1, "STU001"⟩]
        { headers := ["Student ID", "Grade"], rows := [["STU999", "B"], ["STU001", "A+"]] }
        7 "Fall" "2024" (some 9) []
      = (.triple true "Successfully created/updated 1 grade(s). 1 error(s) occurred."
          ["Student with ID STU999 not found (row 2)"],
         [{ student := 1, course := 7, semester := "Fall", academic_year := "2024",
            grade := "A+", percentage := none, created_by := some 9 }]) := by
  refine ⟨?_, ?_, by decide⟩
  · intro students table course semester academic_year created_by store sc gc h1 h2
    unfold process_excel_grades
    dsimp only
    rw [h1, h2]
    exact ⟨_, _, _, rfl⟩
  · intro students headers sc gc pc course semester academic_year created_by index row store err herr
    rcases processRow_error_isolated students headers sc gc pc course semester academic_year
      created_by index row store err herr with ⟨hs, _, hc⟩
    exact ⟨hs, hc⟩

/-- Witness for C5: the unknown-student error for the first data row names row
0 + 2 = 2, obtained through `import_row_isolation`. -/
theorem import_row_isolation_witness :
    strContains "Student with ID STU999 not found (row 2)" ("row " ++ toString (0 + 2)) = true :=
  (import_row_isolation.2.1 [⟨1, "STU001"⟩] ["student id", "grade"] "student id" "grade" none
      7 "Fall" "2024" none 0 ["STU999", "B"] [] "Student with ID STU999 not found (row 2)"
      (by decide)).2

/-- C4 (code bug): on a table whose headers resolve neither a student-id nor a
grade column the code returns the 2-tuple `(False, message)` — `return False,
"Excel file must contain ..."` at `utils.py:182` omits the error list — not
the 3-tuple of every other return path, which the function's tests and its
caller (`views.py:369`) unpack; the store is left untouched as the claim
says. -/
theorem missing_columns_returns_two_tuple :
    process_excel_grades [⟨1, "STU001"⟩]
        { headers := ["Name", "Score"], rows := [["John", "95"]] } 7 "Fall" "2024" (some 9) []
      = (.pair false "Excel file must contain 'Student ID' and 'Grade' columns", []) := by
  decide

/-- C6 (code bug): re-importing a row whose (student, course, semester, year)
Grade already exists updates the record in place, yet the summary reads
"Successfully created/updated 0 grade(s)." — `grades_created` at
`utils.py:222-223` is incremented only when `update_or_create` created a new
record, contradicting the message's own "created/updated" wording and the
spec's count of rows whose upsert succeeded. -/
theorem summary_counts_only_newly_created :
    process_excel_grades [⟨1, "STU001"⟩]
        { headers := ["Student ID", "Grade"], rows := [["STU001", "A"]] }
        7 "Fall" "2024" (some 9)
        [{ student := 1, course := 7, semester := "Fall", academic_year := "2024",
           grade := "B", percentage := none, created_by := some 9 }]
      = (.triple true "Successfully created/updated 0 grade(s)." [],
         [{ student := 1, course := 7, semester := "Fall", academic_year := "2024",
            grade := "A", percentage := none, created_by := some 9 }]) := by
  decide

end EduPace
